import Mathlib

/-!
Verification of the host-creation workflow in `cmd/server-machine/machine.go`
(repository `anjmao/machine`).

The single source file implements `cmdCreateInner`, a sequential workflow that
validates a host name, serializes a base driver configuration, resolves a
driver through the libmachine API (`api.NewHost`), attaches host options,
checks the store for an existing host (`api.Exists`), configures the driver
(`SetConfigFromFlags`), creates the machine (`api.Create`), and persists it
(`api.Save`).  External collaborators (the libmachine API, the host-name
validator, the disk) are modelled as an explicit environment `Env` that fixes
each collaborator's answer; the workflow itself is embedded as a pure function
returning the Go error value (or `none` for success) together with the ordered
trace of collaborator calls it made.
-/

/-- Embeds `auth.Options` as populated by the struct literal in `cmdCreateInner`
(machine.go lines 110-120). -/
structure AuthOptions where
  CertDir : String
  CaCertPath : String
  CaPrivateKeyPath : String
  ClientCertPath : String
  ClientKeyPath : String
  ServerCertPath : String
  ServerKeyPath : String
  StorePath : String
  ServerCertSANs : List String
deriving DecidableEq, Repr

/-- Embeds `engine.Options` as populated by the struct literal in `cmdCreateInner`
(machine.go lines 121-130). -/
structure EngineOptions where
  ArbitraryFlags : List String
  Env : List String
  InsecureRegistry : List String
  Labels : List String
  RegistryMirror : List String
  StorageDriver : String
  TLSVerify : Bool
  InstallURL : String
deriving DecidableEq, Repr

/-- Embeds `swarm.Options`; the source literal only sets `IsSwarm` (machine.go
lines 131-133). -/
structure SwarmOptions where
  IsSwarm : Bool
deriving DecidableEq, Repr

/-- Embeds `host.Options`: the aggregate attached to a Host (machine.go
lines 109-134). -/
structure HostOptions where
  AuthOptions : AuthOptions
  EngineOptions : EngineOptions
  SwarmOptions : SwarmOptions
deriving DecidableEq, Repr

/-- The fields of `host.Host` the workflow reads or writes: `Name`,
`DriverName` and `HostOptions`.  The polymorphic driver handle is not stored
here; its behaviour (`SetConfigFromFlags`) is answered by the environment. -/
structure Host where
  Name : String
  DriverName : String
  HostOptions : Option HostOptions
deriving DecidableEq, Repr

/-- Embeds `createOptions` (machine.go lines 52-63): the creation request. -/
structure CreateOptions where
  Name : String
  DriverName : String
  StorePath : String
  CaCertPath : String
  CaPrivateKeyPath : String
  ClientCertPath : String
  ClientKeyPath : String
  ServerCertPath : String
  ServerKeyPath : String
  ServerCertSANs : List String
deriving DecidableEq, Repr

/-- Embeds `crashreport.CrashError` as constructed by the struct literal at
machine.go lines 164-170.  `Cause` holds the message of the driver error. -/
structure CrashError where
  Cause : String
  Command : String
  Context : String
  DriverName : String
  LogFilePath : String
deriving DecidableEq, Repr

/-- The Go `error` values `cmdCreateInner` can return: a `fmt.Errorf` result
(identified by its formatted message), the structured
`mcnerror.ErrHostAlreadyExists`, or the structured `crashreport.CrashError`.
Distinct constructors correspond to distinct Go dynamic types. -/
inductive GoError where
  | errorf (msg : String)
  | hostAlreadyExists (name : String)
  | crashError (c : CrashError)
deriving DecidableEq, Repr

/-- One call to an external collaborator, recorded in order of occurrence:
host-name validation, driver-registry resolution (`api.NewHost`), the store
existence check (`api.Exists`), driver configuration
(`h.Driver.SetConfigFromFlags`), machine creation (`api.Create`), and
persistence (`api.Save`, recording the Host passed to it). -/
inductive Event where
  | validateCall (name : String)
  | newHostCall (driverName : String)
  | existsCall (name : String)
  | setConfigCall
  | createCall
  | saveCall (h : Host)
deriving DecidableEq, Repr

/-- The answers of all external collaborators for one run.  Error-returning
collaborators are modelled by `Option String` (`some msg` = the error's
message, `none` = nil error); `Exists` returns a bool or an error.
`fileExists` is the ambient disk state: whether a path names an existing
artifact.  The workflow under verification never consults it. -/
structure Env where
  validateHostName : String → Bool
  machineCertDir : String
  machinesDir : String
  marshalErr : Option String
  newHostErr : Option String
  existsResult : Except String Bool
  setConfigErr : Option String
  createErr : Option String
  saveErr : Option String
  fileExists : String → Bool

/-- Embeds `driverOpts` (machine.go line 72): the empty struct implementing
`DriverOptions`. -/
structure driverOpts
deriving DecidableEq, Repr

/-- The method `driverOpts.String` (machine.go line 74): returns the empty
string for every key.  (The Go method names `String`, `Int`, `Bool` would
shadow the Lean types of the same name, so the methods are embedded as
top-level functions prefixed with the receiver type.) -/
def driverOptsString (_ : driverOpts) (_ : String) : String := ""

/-- The method `driverOpts.StringSlice` (machine.go line 75): returns the
empty slice for every key. -/
def driverOptsStringSlice (_ : driverOpts) (_ : String) : List String := []

/-- The method `driverOpts.Int` (machine.go line 76): returns 0 for every
key. -/
def driverOptsInt (_ : driverOpts) (_ : String) : Int := 0

/-- The method `driverOpts.Bool` (machine.go line 77): returns true for every
key. -/
def driverOptsBool (_ : driverOpts) (_ : String) : Bool := true

/-- Modelled from the spec: the message of `mcnerror.ErrInvalidHostname`
(libmachine, not under src/).  Its exact text is immaterial to the claims;
only the surrounding `fmt.Errorf` wrapper from machine.go line 92 matters. -/
def errInvalidHostnameMsg : String :=
  "Invalid hostname specified. Allowed hostname chars are: 0-9a-zA-Z . -"

/-- Go `filepath.Join`: empty components are dropped and the rest joined with
separators (the final `Clean` pass is omitted; the claims only use that a join
containing the non-empty component "VBox.log" is non-empty). -/
def filepathJoin (elems : List String) : String :=
  String.intercalate "/" (elems.filter (fun s => s ≠ ""))

/-- Modelled from the spec: `api.NewHost` (Driver Registry, libmachine, not
under src/) on success "constructs a new Host bound to the named driver,
deserializing baseConfig into the driver's base fields (name, store path)";
the serialized base config carries `MachineName = opt.Name` and
`StorePath = opt.StorePath` (machine.go lines 96-99), so the resulting Host
has `Name = opt.Name` and `DriverName = driverName`, with no options yet. -/
def newHostModel (driverName name : String) : Host :=
  { Name := name, DriverName := driverName, HostOptions := none }

/-- The `host.Options` literal assigned to `h.HostOptions` at machine.go
lines 109-134, assembled from the request and the ambient machine cert
directory (`mcndirs.GetMachineCertDir()`). -/
def buildHostOptions (opt : CreateOptions) (certDir : String) : HostOptions :=
  { AuthOptions :=
      { CertDir := certDir
        CaCertPath := opt.CaCertPath
        CaPrivateKeyPath := opt.CaPrivateKeyPath
        ClientCertPath := opt.ClientCertPath
        ClientKeyPath := opt.ClientKeyPath
        ServerCertPath := opt.ServerCertPath
        ServerKeyPath := opt.ServerKeyPath
        StorePath := opt.StorePath
        ServerCertSANs := opt.ServerCertSANs }
    EngineOptions :=
      { ArbitraryFlags := ["TODO"]
        Env := ["TODO"]
        InsecureRegistry := ["TODO"]
        Labels := ["TODO"]
        RegistryMirror := ["TODO"]
        StorageDriver := "TODO"
        TLSVerify := true
        InstallURL := "TODO" }
    SwarmOptions := { IsSwarm := false } }

/-- The hardcoded `createOptions` literal of machine.go lines 80-88; the
unset Go fields are their zero values. -/
def defaultOpt : CreateOptions :=
  { Name := "todoname"
    DriverName := "virtualbox"
    StorePath := "todo"
    CaCertPath := "ca.pem"
    CaPrivateKeyPath := "ca-key.pem"
    ClientCertPath := "cert.pem"
    ClientKeyPath := "key.pem"
    ServerCertPath := ""
    ServerKeyPath := ""
    ServerCertSANs := [] }

/-- Embeds `cmdCreateInner` (machine.go lines 79-180), embedded over the request
`opt` (hardcoded to `defaultOpt` in the source) and the collaborator answers
`env`.  Returns the Go error (`none` = nil = success) and the ordered trace
of collaborator calls.  Control flow mirrors the source line by line:
validate; marshal the base driver; `api.NewHost`; attach `HostOptions`;
`api.Exists`; `SetConfigFromFlags`; `api.Create` (on failure build the
`CrashError`, with the VBox log path chosen only by the driver name);
`api.Save`. -/
def cmdCreateInner (opt : CreateOptions) (env : Env) :
    Option GoError × List Event :=
  let tr0 : List Event := [.validateCall opt.Name]
  if env.validateHostName opt.Name = false then
    (some (.errorf ("Error creating machine: " ++ errInvalidHostnameMsg)), tr0)
  else
    match env.marshalErr with
    | some e =>
        (some (.errorf ("Error attempting to marshal bare driver data: " ++ e)), tr0)
    | none =>
      let tr1 := tr0 ++ [.newHostCall opt.DriverName]
      match env.newHostErr with
      | some e => (some (.errorf ("Error getting new host: " ++ e)), tr1)
      | none =>
        let h0 := newHostModel opt.DriverName opt.Name
        let h : Host :=
          { h0 with HostOptions := some (buildHostOptions opt env.machineCertDir) }
        let tr2 := tr1 ++ [.existsCall h.Name]
        match env.existsResult with
        | .error e =>
            (some (.errorf ("Error checking if host exists: " ++ e)), tr2)
        | .ok true => (some (.hostAlreadyExists h.Name), tr2)
        | .ok false =>
          let tr3 := tr2 ++ [.setConfigCall]
          match env.setConfigErr with
          | some e =>
              (some (.errorf
                ("Error setting machine configuration from flags provided: " ++ e)), tr3)
          | none =>
            let tr4 := tr3 ++ [.createCall]
            match env.createErr with
            | some e =>
              let vBoxLog :=
                if h.DriverName = "virtualbox" then
                  filepathJoin [env.machinesDir, h.Name, h.Name, "Logs", "VBox.log"]
                else ""
              (some (.crashError
                { Cause := e
                  Command := "Create"
                  Context := "api.performCreate"
                  DriverName := h.DriverName
                  LogFilePath := vBoxLog }), tr4)
            | none =>
              let tr5 := tr4 ++ [.saveCall h]
              match env.saveErr with
              | some e =>
                  (some (.errorf ("Error attempting to save store: " ++ e)), tr5)
              | none => (none, tr5)

/-- The Hosts passed to `api.Save` during a run, in order. -/
def saveCalls (tr : List Event) : List Host :=
  tr.filterMap fun e =>
    match e with
    | .saveCall h => some h
    | _ => none

/-- Whether an event is a driver-registry resolution (`api.NewHost`). -/
def isNewHostCall : Event → Bool
  | .newHostCall _ => true
  | _ => false

/-- Whether an event is a store existence check (`api.Exists`). -/
def isExistsCall : Event → Bool
  | .existsCall _ => true
  | _ => false

/-- Whether an event is a `SetConfigFromFlags` call. -/
def isSetConfigCall : Event → Bool
  | .setConfigCall => true
  | _ => false

/-- Whether an event is an `api.Create` call. -/
def isCreateCall : Event → Bool
  | .createCall => true
  | _ => false

/-- Whether an event is an `api.Save` call. -/
def isSaveCall : Event → Bool
  | .saveCall _ => true
  | _ => false

/-- Whether a returned error is the structured `crashreport.CrashError`. -/
def isCrashError : GoError → Bool
  | .crashError _ => true
  | _ => false

/-- A fully successful environment: every collaborator answers favourably,
and no artifact exists on disk. -/
def envAllOk : Env :=
  { validateHostName := fun _ => true
    machineCertDir := "certs"
    machinesDir := "machines"
    marshalErr := none
    newHostErr := none
    existsResult := .ok false
    setConfigErr := none
    createErr := none
    saveErr := none
    fileExists := fun _ => false }

/-- Same as `envAllOk` except that `api.Create` fails with "boom". -/
def envCreateFails : Env := { envAllOk with createErr := some "boom" }

/-- Same as `envAllOk` except that the store existence check errors with "boom". -/
def envExistsErr : Env := { envAllOk with existsResult := .error "boom" }

/-- Same as `envAllOk` except that the store reports the host already exists. -/
def envExistsTrue : Env := { envAllOk with existsResult := .ok true }

/-- Same as `envAllOk` except that the host name fails validation. -/
def envBadName : Env := { envAllOk with validateHostName := fun _ => false }

/-- Same as `envAllOk` except that `SetConfigFromFlags` rejects with "bad flag". -/
def envConfigFails : Env := { envAllOk with setConfigErr := some "bad flag" }

/-- Same as `envAllOk` except that `api.Save` fails with "disk full". -/
def envSaveFails : Env := { envAllOk with saveErr := some "disk full" }

/-- First index in a trace at which an event satisfying the predicate occurs,
or none if no such event occurs. -/
def firstIdx (p : Event → Bool) : List Event → Option Nat
  | [] => none
  | e :: tr => if p e then some 0 else (firstIdx p tr).map (· + 1)

/-- Helper: the accumulator of `String.intercalate.go` only ever grows, so the
result is at least as long as the accumulator. -/
theorem intercalate_go_length (l : List String) (acc s : String) :
    acc.length ≤ (String.intercalate.go acc s l).length := by
  induction l generalizing acc with
  | nil => simp [String.intercalate.go]
  | cons a as ih =>
      have h1 : String.intercalate.go acc s (a :: as) =
          String.intercalate.go (acc ++ s ++ a) s as := rfl
      rw [h1]
      have h2 := ih (acc ++ s ++ a)
      have h3 : acc.length ≤ (acc ++ s ++ a).length := by
        simp [String.length_append]
        omega
      omega

/-- Helper: `filepathJoin` of a list containing a non-empty component is
non-empty. -/
theorem filepathJoin_ne_empty_of_mem (l : List String) (x : String)
    (hx : x ∈ l) (hxe : x ≠ "") : filepathJoin l ≠ "" := by
  have hmem : x ∈ l.filter (fun s => s ≠ "") := by
    simp [List.mem_filter, hx, hxe]
  unfold filepathJoin
  rcases hf : l.filter (fun s => s ≠ "") with _ | ⟨h, t⟩
  · rw [hf] at hmem; simp at hmem
  · have hh : h ≠ "" := by
      have : h ∈ l.filter (fun s => s ≠ "") := by rw [hf]; exact List.mem_cons_self h t
      have := List.of_mem_filter this
      simpa using this
    have hlen : 0 < h.length := by
      rcases Nat.eq_zero_or_pos h.length with h0 | hp
      · exfalso
        apply hh
        have : h.data.length = 0 := h0
        have hd : h.data = [] := List.length_eq_zero.mp this
        apply String.ext
        simpa using hd
      · exact hp
    have hgo : String.intercalate "/" (h :: t) = String.intercalate.go h "/" t := rfl
    rw [hgo]
    intro hcontra
    have := intercalate_go_length t h "/"
    rw [hcontra] at this
    simp at this
    omega

/-- C1: for every request and every collaborator behaviour, the workflow calls
`api.Save` if and only if `api.Create` was invoked and returned nil: no
failure path before or during creation ever reaches `Save`, so a failed
creation leaves no record in the Store. -/
theorem save_iff_create_succeeded (opt : CreateOptions) (env : Env) :
    (cmdCreateInner opt env).2.any isSaveCall = true ↔
      (Event.createCall ∈ (cmdCreateInner opt env).2 ∧ env.createErr = none) := by
  obtain ⟨v, cd, md, me, ne, ex, sc, ce, se, fe⟩ := env
  cases hv : v opt.Name <;> cases me <;> cases ne <;>
    rcases ex with e | (_ | _) <;> cases sc <;> cases ce <;> cases se <;>
      simp [cmdCreateInner, hv, isSaveCall]

/-- C2: whenever `Create` is invoked and succeeds, `Save` is invoked exactly
once, and the Host passed to `Save` carries exactly the `HostOptions` the
options builder assembled for the same request: `AuthOptions` populated from
the request's cert paths, store path and SANs (plus the ambient cert
directory), with the `EngineOptions` and `SwarmOptions` literals as built. -/
theorem create_ok_save_exactly_once (opt : CreateOptions) (env : Env)
    (hcr : Event.createCall ∈ (cmdCreateInner opt env).2)
    (hok : env.createErr = none) :
    saveCalls (cmdCreateInner opt env).2 =
      [{ Name := opt.Name, DriverName := opt.DriverName,
         HostOptions := some (buildHostOptions opt env.machineCertDir) }] ∧
    (buildHostOptions opt env.machineCertDir).AuthOptions =
      { CertDir := env.machineCertDir, CaCertPath := opt.CaCertPath,
        CaPrivateKeyPath := opt.CaPrivateKeyPath,
        ClientCertPath := opt.ClientCertPath,
        ClientKeyPath := opt.ClientKeyPath,
        ServerCertPath := opt.ServerCertPath,
        ServerKeyPath := opt.ServerKeyPath,
        StorePath := opt.StorePath,
        ServerCertSANs := opt.ServerCertSANs } := by
  obtain ⟨v, cd, md, me, ne, ex, sc, ce, se, fe⟩ := env
  cases hv : v opt.Name <;> cases me <;> cases ne <;>
    rcases ex with e | (_ | _) <;> cases sc <;> cases ce <;> cases se <;>
      simp_all [cmdCreateInner, saveCalls, newHostModel, buildHostOptions]

/-- Witness for C2 at the hardcoded request and an all-succeeding
environment. -/
theorem create_ok_save_exactly_once_witness :
    Event.createCall ∈ (cmdCreateInner defaultOpt envAllOk).2 ∧
    envAllOk.createErr = none ∧
    saveCalls (cmdCreateInner defaultOpt envAllOk).2 =
      [{ Name := defaultOpt.Name, DriverName := defaultOpt.DriverName,
         HostOptions := some (buildHostOptions defaultOpt envAllOk.machineCertDir) }] :=
  ⟨by decide, rfl,
    (create_ok_save_exactly_once defaultOpt envAllOk (by decide) rfl).1⟩

/-- C3: when the request's name fails host-name validation, the workflow
returns the wrapped invalid-hostname error and the trace consists of the
validation call alone: no registry resolution, no store existence check, no
`SetConfigFromFlags`, no `Create`, no `Save`. -/
theorem invalid_name_fails_fast (opt : CreateOptions) (env : Env)
    (hv : env.validateHostName opt.Name = false) :
    (cmdCreateInner opt env).1 =
      some (.errorf ("Error creating machine: " ++ errInvalidHostnameMsg)) ∧
    (cmdCreateInner opt env).2 = [.validateCall opt.Name] ∧
    (cmdCreateInner opt env).2.any isNewHostCall = false ∧
    (cmdCreateInner opt env).2.any isExistsCall = false ∧
    (cmdCreateInner opt env).2.any isSetConfigCall = false ∧
    (cmdCreateInner opt env).2.any isCreateCall = false ∧
    (cmdCreateInner opt env).2.any isSaveCall = false := by
  obtain ⟨v, cd, md, me, ne, ex, sc, ce, se, fe⟩ := env
  simp_all [cmdCreateInner, isNewHostCall, isExistsCall, isSetConfigCall,
    isCreateCall, isSaveCall]

/-- Witness for C3 at the hardcoded request and an environment whose
validator rejects every name. -/
theorem invalid_name_fails_fast_witness :
    envBadName.validateHostName defaultOpt.Name = false ∧
    (cmdCreateInner defaultOpt envBadName).1 =
      some (.errorf ("Error creating machine: " ++ errInvalidHostnameMsg)) :=
  ⟨rfl, (invalid_name_fails_fast defaultOpt envBadName rfl).1⟩

/-- C4: when the store existence check is consulted and reports true, the
workflow returns `ErrHostAlreadyExists` carrying the request's name, and
neither `SetConfigFromFlags` nor `Create` is ever invoked. -/
theorem exists_true_stops_before_driver (opt : CreateOptions) (env : Env)
    (hex : (cmdCreateInner opt env).2.any isExistsCall = true)
    (ht : env.existsResult = Except.ok true) :
    (cmdCreateInner opt env).1 = some (.hostAlreadyExists opt.Name) ∧
    (cmdCreateInner opt env).2.any isSetConfigCall = false ∧
    (cmdCreateInner opt env).2.any isCreateCall = false := by
  obtain ⟨v, cd, md, me, ne, ex, sc, ce, se, fe⟩ := env
  cases hv : v opt.Name <;> cases me <;> cases ne <;>
    simp_all [cmdCreateInner, newHostModel, isExistsCall, isSetConfigCall,
      isCreateCall]

/-- Witness for C4 at the hardcoded request and an environment whose store
reports the name as existing. -/
theorem exists_true_stops_before_driver_witness :
    (cmdCreateInner defaultOpt envExistsTrue).2.any isExistsCall = true ∧
    envExistsTrue.existsResult = Except.ok true ∧
    (cmdCreateInner defaultOpt envExistsTrue).1 =
      some (.hostAlreadyExists defaultOpt.Name) :=
  ⟨by decide, rfl,
    (exists_true_stops_before_driver defaultOpt envExistsTrue (by decide) rfl).1⟩

/-- C5: when `SetConfigFromFlags` is invoked and returns an error, the
workflow returns the wrapped configuration-rejected error and neither
`Create` nor `Save` is ever invoked. -/
theorem config_rejected_no_create_no_save (opt : CreateOptions) (env : Env)
    (e : String)
    (hsc : (cmdCreateInner opt env).2.any isSetConfigCall = true)
    (he : env.setConfigErr = some e) :
    (cmdCreateInner opt env).1 =
      some (.errorf
        ("Error setting machine configuration from flags provided: " ++ e)) ∧
    (cmdCreateInner opt env).2.any isCreateCall = false ∧
    (cmdCreateInner opt env).2.any isSaveCall = false := by
  obtain ⟨v, cd, md, me, ne, ex, sc, ce, se, fe⟩ := env
  cases hv : v opt.Name <;> cases me <;> cases ne <;>
    rcases ex with e' | (_ | _) <;>
      simp_all [cmdCreateInner, newHostModel, isExistsCall, isSetConfigCall,
        isCreateCall, isSaveCall]

/-- Witness for C5 at the hardcoded request and an environment whose driver
rejects the configuration. -/
theorem config_rejected_no_create_no_save_witness :
    (cmdCreateInner defaultOpt envConfigFails).2.any isSetConfigCall = true ∧
    envConfigFails.setConfigErr = some "bad flag" ∧
    (cmdCreateInner defaultOpt envConfigFails).1 =
      some (.errorf
        ("Error setting machine configuration from flags provided: " ++ "bad flag")) :=
  ⟨by decide, rfl,
    (config_rejected_no_create_no_save defaultOpt envConfigFails "bad flag"
      (by decide) rfl).1⟩

/-- C6 (counterexample): with the hardcoded request (driver "virtualbox") and
an environment where `Create` fails and no artifact exists anywhere on disk,
the returned CrashReport's `logFilePath` is nevertheless non-empty — refuting
the claim that `logFilePath` is empty whenever the backend-specific
diagnostic artifact does not exist on disk. -/
theorem crash_logpath_ignores_disk_counterexample :
    envCreateFails.createErr = some "boom" ∧
    (cmdCreateInner defaultOpt envCreateFails).1 =
      some (.crashError
        { Cause := "boom", Command := "Create", Context := "api.performCreate",
          DriverName := "virtualbox",
          LogFilePath := "machines/todoname/todoname/Logs/VBox.log" }) ∧
    envCreateFails.fileExists "machines/todoname/todoname/Logs/VBox.log" = false ∧
    "machines/todoname/todoname/Logs/VBox.log" ≠ "" :=
  ⟨rfl, by decide, rfl, by decide⟩

/-- C6 (amended): when `Create` is invoked and fails, the workflow returns a
CrashReport whose `driverName` and `cause` come from the request and the
driver error, and whose `logFilePath` is the candidate VBox.log path exactly
when the driver name is "virtualbox" and empty otherwise — the disk is never
consulted, so `logFilePath` is non-empty iff the driver name is
"virtualbox". -/
theorem crash_report_driver_and_logpath (opt : CreateOptions) (env : Env)
    (e : String)
    (hcc : (cmdCreateInner opt env).2.any isCreateCall = true)
    (hfail : env.createErr = some e) :
    (cmdCreateInner opt env).1 = some (.crashError
      { Cause := e, Command := "Create", Context := "api.performCreate",
        DriverName := opt.DriverName,
        LogFilePath :=
          if opt.DriverName = "virtualbox" then
            filepathJoin [env.machinesDir, opt.Name, opt.Name, "Logs", "VBox.log"]
          else "" }) ∧
    ((if opt.DriverName = "virtualbox" then
        filepathJoin [env.machinesDir, opt.Name, opt.Name, "Logs", "VBox.log"]
      else "") ≠ "" ↔ opt.DriverName = "virtualbox") := by
  constructor
  · obtain ⟨v, cd, md, me, ne, ex, sc, ce, se, fe⟩ := env
    cases hv : v opt.Name <;> cases me <;> cases ne <;>
      rcases ex with e' | (_ | _) <;> cases sc <;> cases ce <;>
        simp_all [cmdCreateInner, newHostModel, isCreateCall]
  · by_cases hd : opt.DriverName = "virtualbox"
    · simp [hd]
      exact filepathJoin_ne_empty_of_mem _ "VBox.log" (by simp) (by decide)
    · simp [hd]

/-- Witness for the amended C6 at the hardcoded request and an environment
where `Create` fails with "boom". -/
theorem crash_report_driver_and_logpath_witness :
    (cmdCreateInner defaultOpt envCreateFails).2.any isCreateCall = true ∧
    envCreateFails.createErr = some "boom" ∧
    (cmdCreateInner defaultOpt envCreateFails).1 = some (.crashError
      { Cause := "boom", Command := "Create", Context := "api.performCreate",
        DriverName := defaultOpt.DriverName,
        LogFilePath :=
          if defaultOpt.DriverName = "virtualbox" then
            filepathJoin [envCreateFails.machinesDir, defaultOpt.Name,
              defaultOpt.Name, "Logs", "VBox.log"]
          else "" }) :=
  ⟨by decide, rfl,
    (crash_report_driver_and_logpath defaultOpt envCreateFails "boom"
      (by decide) rfl).1⟩

/-- C7 (counterexample): in a concrete successful run, the driver-registry
resolution (`api.NewHost`) occurs at trace position 1 and the store existence
check at position 2, and 2 < 1 is false — refuting the claim that the
Existence Guard is consulted before the Driver Registry is invoked. -/
theorem exists_checked_after_registry_counterexample :
    firstIdx isNewHostCall (cmdCreateInner defaultOpt envAllOk).2 = some 1 ∧
    firstIdx isExistsCall (cmdCreateInner defaultOpt envAllOk).2 = some 2 ∧
    ¬ ((2 : Nat) < 1) :=
  ⟨by decide, by decide, by decide⟩

/-- C7 (amended): in every run that consults the store existence check, the
driver-registry resolution has already happened: the first registry call sits
at trace position 1 (right after validation) and the first existence check at
position 2, so the registry invocation precedes the Existence Guard. -/
theorem registry_resolution_precedes_exists (opt : CreateOptions) (env : Env)
    (hex : (cmdCreateInner opt env).2.any isExistsCall = true) :
    firstIdx isNewHostCall (cmdCreateInner opt env).2 = some 1 ∧
    firstIdx isExistsCall (cmdCreateInner opt env).2 = some 2 ∧
    (1 : Nat) < 2 := by
  obtain ⟨v, cd, md, me, ne, ex, sc, ce, se, fe⟩ := env
  cases hv : v opt.Name <;> cases me <;> cases ne <;>
    rcases ex with e' | (_ | _) <;> cases sc <;> cases ce <;> cases se <;>
      simp_all [cmdCreateInner, firstIdx, isNewHostCall, isExistsCall,
        isSetConfigCall, isCreateCall, isSaveCall]

/-- Witness for the amended C7 at the hardcoded request and an all-succeeding
environment. -/
theorem registry_resolution_precedes_exists_witness :
    (cmdCreateInner defaultOpt envAllOk).2.any isExistsCall = true ∧
    firstIdx isNewHostCall (cmdCreateInner defaultOpt envAllOk).2 = some 1 ∧
    firstIdx isExistsCall (cmdCreateInner defaultOpt envAllOk).2 = some 2 :=
  ⟨by decide,
    (registry_resolution_precedes_exists defaultOpt envAllOk (by decide)).1,
    (registry_resolution_precedes_exists defaultOpt envAllOk (by decide)).2.1⟩

/-- C8 (counterexample): with a store that fails the existence check with
message "boom", the workflow returns the error with message
"Error checking if host exists: boom", which differs from the store's own
error — refuting the claim that the Store I/O error is propagated verbatim. -/
theorem exists_error_not_verbatim_counterexample :
    envExistsErr.existsResult = Except.error "boom" ∧
    (cmdCreateInner defaultOpt envExistsErr).1 =
      some (.errorf "Error checking if host exists: boom") ∧
    GoError.errorf "Error checking if host exists: boom" ≠ GoError.errorf "boom" :=
  ⟨rfl, by decide, by decide⟩

/-- C8 (amended): when the store existence check is consulted and returns an
error, the workflow returns a new `fmt.Errorf` error whose message is the
store error's message prefixed with "Error checking if host exists: " — the
store error is wrapped, not propagated verbatim. -/
theorem exists_error_wrapped (opt : CreateOptions) (env : Env) (e : String)
    (hex : (cmdCreateInner opt env).2.any isExistsCall = true)
    (he : env.existsResult = Except.error e) :
    (cmdCreateInner opt env).1 =
      some (.errorf ("Error checking if host exists: " ++ e)) := by
  obtain ⟨v, cd, md, me, ne, ex, sc, ce, se, fe⟩ := env
  cases hv : v opt.Name <;> cases me <;> cases ne <;>
    simp_all [cmdCreateInner, newHostModel, isExistsCall]

/-- Witness for the amended C8 at the hardcoded request and an environment
whose store existence check fails with "boom". -/
theorem exists_error_wrapped_witness :
    (cmdCreateInner defaultOpt envExistsErr).2.any isExistsCall = true ∧
    envExistsErr.existsResult = Except.error "boom" ∧
    (cmdCreateInner defaultOpt envExistsErr).1 =
      some (.errorf ("Error checking if host exists: " ++ "boom")) :=
  ⟨by decide, rfl,
    exists_error_wrapped defaultOpt envExistsErr "boom" (by decide) rfl⟩

/-- C9: when `Create` is invoked and succeeds but `Save` fails, the workflow
returns the wrapped save error, which is a `fmt.Errorf`-style error and not a
`crashreport.CrashError` — so the persist failure is distinguishable from the
structured crash report produced when `Create` itself fails. -/
theorem save_error_persist_failed (opt : CreateOptions) (env : Env) (e : String)
    (hcr : Event.createCall ∈ (cmdCreateInner opt env).2)
    (hok : env.createErr = none)
    (hse : env.saveErr = some e) :
    (cmdCreateInner opt env).1 =
      some (.errorf ("Error attempting to save store: " ++ e)) ∧
    isCrashError (GoError.errorf ("Error attempting to save store: " ++ e)) = false := by
  obtain ⟨v, cd, md, me, ne, ex, sc, ce, se, fe⟩ := env
  cases hv : v opt.Name <;> cases me <;> cases ne <;>
    rcases ex with e' | (_ | _) <;> cases sc <;> cases ce <;> cases se <;>
      simp_all [cmdCreateInner, isCrashError]

/-- Witness for C9 at the hardcoded request and an environment where `Save`
fails with "disk full". -/
theorem save_error_persist_failed_witness :
    Event.createCall ∈ (cmdCreateInner defaultOpt envSaveFails).2 ∧
    envSaveFails.createErr = none ∧
    envSaveFails.saveErr = some "disk full" ∧
    (cmdCreateInner defaultOpt envSaveFails).1 =
      some (.errorf ("Error attempting to save store: " ++ "disk full")) :=
  ⟨by decide, rfl, rfl,
    (save_error_persist_failed defaultOpt envSaveFails "disk full"
      (by decide) rfl rfl).1⟩

/-- C10: the driver-options accessor passed to `SetConfigFromFlags` is
constant: for every key, `String` returns the empty string, `StringSlice` the
empty list, `Int` zero, and `Bool` true. -/
theorem driverOpts_all_constant (d : driverOpts) (key : String) :
    driverOptsString d key = "" ∧ driverOptsStringSlice d key = [] ∧
    driverOptsInt d key = 0 ∧ driverOptsBool d key = true :=
  ⟨rfl, rfl, rfl, rfl⟩
